import Mathlib

set_option maxHeartbeats 1000000

/-!
Verification development for the tablet-resource-manager metrics engine.

The definitions below are shallow embeddings of the JavaScript source:
* `server/src/index.js` — the GET /api/metrics aggregator handler;
* `server/src/collectors/cpu.js` — `calculateCpuUsage` / `collectCpuInfo`;
* `server/src/collectors/disk.js` — `parseDfOutput` / `collectDiskInfo`
  and the network collector that shares its caching pattern;
* `server/src/collectors/android.js` — `collectAndroidInfo`;
* the host/memory collectors (failure payload shapes only).

JS numbers are modelled as ℚ (tick arithmetic as ℤ), `parseFloat(x.toFixed(2))`
as rounding to two decimals, fallible reads as `Option`/`Except`, and the
collectors' module-level caches as explicit state records threaded through.
-/

/-! ## JS value model for snapshot slots

Only the structure the aggregator inspects is modelled: an object carries an
optional `error` and `message` field (all other fields are irrelevant to the
warning scan), and an array is a list of values. -/

inductive SlotVal where
  | obj (error : Option String) (message : Option String)
  | arr (elems : List SlotVal)

/-- The property access `metrics[key]?.error` (index.js line 110): reading
`error` on an object yields that field; on an array it is `undefined`. -/
def jsGetError : SlotVal → Option String
  | .obj e _ => e
  | .arr _ => none

/-- A settled promise as delivered by `Promise.allSettled`: either fulfilled
with a value, or rejected with a reason whose `message` may be absent. -/
inductive Settled where
  | fulfilled (v : SlotVal)
  | rejected (reasonMessage : Option String)

/-- Slot construction in the handler (index.js lines 82-105): a fulfilled
probe's value is placed as-is; a rejection is replaced by
`{error: <fixed string>, message: reason?.message || 'Unknown error'}`. -/
def slotFor (errStr : String) (s : Settled) : SlotVal :=
  match s with
  | .fulfilled v => v
  | .rejected m => .obj (some errStr) (some (m.getD "Unknown error"))

/-- The six domain slots of the metrics object, in insertion order, with the
handler's fixed per-domain rejection error strings (index.js lines 79-106). -/
def metricsSlots (host memory cpu disk network android : Settled) :
    List (String × SlotVal) :=
  [ ("host", slotFor "Failed to collect host info" host),
    ("memory", slotFor "Failed to collect memory info" memory),
    ("cpu", slotFor "Failed to collect CPU info" cpu),
    ("disk", slotFor "Failed to collect disk info" disk),
    ("network", slotFor "Failed to collect network info" network),
    ("android", slotFor "Failed to collect Android info" android) ]

/-- One step of the warning scan (index.js lines 109-113): a slot contributes
`"<key>: <error>"` when `metrics[key]?.error` is truthy (a non-empty string). -/
def warningFor (k : String) (v : SlotVal) : Option String :=
  match jsGetError v with
  | some e => if e = "" then none else some (k ++ ": " ++ e)
  | none => none

/-- The snapshot's warning list: the scan over all domain slots in order. -/
def warningsOf (slots : List (String × SlotVal)) : List String :=
  slots.filterMap (fun kv => warningFor kv.1 kv.2)

/-- Field `meta.status` (index.js line 125): `"ok"` iff no warnings, else `"partial"`. -/
def statusOf (slots : List (String × SlotVal)) : String :=
  if warningsOf slots = [] then "ok" else "partial"

/-! ## Collector-internal failure payloads

Each collector catches its own errors and resolves (never rejects) with the
payload built in its catch block. -/

/-- host.js catch block payload. -/
def hostFailurePayload (m : String) : SlotVal :=
  .obj (some "Failed to collect host information") (some m)

/-- memory.js catch block payload. -/
def memoryFailurePayload (m : String) : SlotVal :=
  .obj (some "Failed to collect memory information") (some m)

/-- cpu.js catch block payload (extra fields `usage`/`loadavg`/`cores` carried
by the real object do not affect the `error` lookup). -/
def cpuFailurePayload (m : String) : SlotVal :=
  .obj (some "Failed to collect CPU information") (some m)

/-- network collector catch block payload. -/
def networkFailurePayload (m : String) : SlotVal :=
  .obj (some "Failed to collect network information") (some m)

/-- android.js catch block payload (also carries `available:false`). -/
def androidFailurePayload (m : String) : SlotVal :=
  .obj (some "Failed to collect Android information") (some m)

/-- disk.js catch block payload (disk.js lines 142-145): the error object is
returned wrapped in a one-element **array**, unlike every other collector. -/
def diskFailurePayload (m : String) : SlotVal :=
  .arr [.obj (some "Failed to collect disk information") (some m)]

/-! ## CPU probe (cpu.js) -/

/-- The sample retained in `lastCpuUsage`: `{total, idle, iowait}` parsed from
the first line of /proc/stat. -/
structure CpuSample where
  total : Int
  idle : Int
  iowait : Int
deriving DecidableEq

/-- The spec's ProbeResult sum type (§3): a probe either yields a value or a
failure descriptor. `calculateCpuUsage` in the source always yields a value. -/
inductive ProbeResult (α : Type) where
  | ok (v : α)
  | failure (kind msg : String)
deriving DecidableEq

def ProbeResult.isFailure {α : Type} : ProbeResult α → Bool
  | .ok _ => false
  | .failure _ _ => true

/-- Function `calculateCpuUsage` (cpu.js lines 12-56).

Inputs: the host platform; the outcome of reading and parsing /proc/stat
(`none` models a throwing read, caught on line 50); the 1-minute load
average; the stored `lastCpuUsage` sample. Output: the returned usage and
the new stored sample.

Branch by branch:
* non-Linux (line 13): return `loadavg[0] * 10` — note, with no cap;
* failed read (catch, lines 50-55): return `min(100, loadavg[0]*10)`,
  leaving the stored sample untouched;
* prior sample present (lines 31-41): `usage = totalDiff > 0 ?
  ((totalDiff - idleDiff)/totalDiff)*100 : 0`, idle including iowait,
  returned as `max(0, min(100, usage))`, re-seeding the sample;
* first measurement (lines 43-49): seed the sample and return
  `min(100, loadavg[0]*10)`. -/
def calculateCpuUsage (platform : String) (readResult : Option CpuSample)
    (loadavg1 : ℚ) (st : Option CpuSample) : ProbeResult ℚ × Option CpuSample :=
  if platform ≠ "linux" then
    (.ok (loadavg1 * 10), st)
  else
    match readResult with
    | none => (.ok (min 100 (loadavg1 * 10)), st)
    | some s =>
      match st with
      | some prev =>
          let totalDiff : Int := s.total - prev.total
          let idleDiff : Int := (s.idle + s.iowait) - (prev.idle + prev.iowait)
          let usage : ℚ :=
            if 0 < totalDiff then
              (((totalDiff - idleDiff : Int) : ℚ) / ((totalDiff : Int) : ℚ)) * 100
            else 0
          (.ok (max 0 (min 100 usage)), some s)
      | none => (.ok (min 100 (loadavg1 * 10)), some s)

/-- Per-core tick counts from `os.cpus()[i].times`. -/
structure CpuTimes where
  user : ℕ
  nice : ℕ
  sys : ℕ
  idle : ℕ
  irq : ℕ

/-- Sum of all members of `cpu.times` (cpu.js line 70). -/
def cpuTotal (c : CpuTimes) : ℕ :=
  c.user + c.nice + c.sys + c.idle + c.irq

/-- Expression `coreUsagePercent` (cpu.js line 72): guarded division by the core's total. -/
def corePct (c : CpuTimes) : ℚ :=
  if 0 < cpuTotal c then
    (((cpuTotal c : ℚ) - (c.idle : ℚ)) / (cpuTotal c : ℚ)) * 100
  else 0

/-- JS `parseFloat(x.toFixed(2))`: rounding to two decimal places. -/
def round2 (x : ℚ) : ℚ := ((round (x * 100) : ℤ) : ℚ) / 100

/-- The `coreUsage` list (cpu.js lines 69-77): index paired with
`parseFloat(Math.min(100, coreUsagePercent).toFixed(2))`. -/
def coreUsageOf (cpus : List CpuTimes) : List (ℕ × ℚ) :=
  cpus.enum.map (fun ic => (ic.1, round2 (min 100 (corePct ic.2))))

/-! ## Disk probe (disk.js, Unix branch) -/

/-- Accumulate a digit run, as JS `parseInt` does after sign handling. -/
def digitsToNat (ds : List Char) : ℕ :=
  ds.foldl (fun n c => n * 10 + (c.toNat - 48)) 0

/-- JS `parseInt(s)` on a whitespace-free token: an optional sign followed by
the leading digit run; `none` models `NaN` (no leading digits). -/
def jsParseInt (s : String) : Option Int :=
  match s.toList with
  | '-' :: rest =>
      let ds := rest.takeWhile Char.isDigit
      if ds = [] then none else some (-(digitsToNat ds : Int))
  | '+' :: rest =>
      let ds := rest.takeWhile Char.isDigit
      if ds = [] then none else some ((digitsToNat ds : Int))
  | l =>
      let ds := l.takeWhile Char.isDigit
      if ds = [] then none else some ((digitsToNat ds : Int))

/-- One parsed `df -kP` row (disk.js lines 35-46). The human-readable
`formatSize` strings are floating-point presentation only and are not
modelled; the numeric fields follow the source: KiB columns times 1024,
and the usage percent parsed from the `%` column. -/
structure DfDisk where
  filesystem : String
  mountpoint : String
  usage : String
  usagePercent : Option Int
  sizeBytes : Option Int
  usedBytes : Option Int
  availableBytes : Option Int
deriving DecidableEq

/-- JS `s.startsWith(p)`: the characters of `p` are a prefix of those of `s`. -/
def strStartsWith (s p : String) : Bool :=
  p.toList.isPrefixOf s.toList

/-- JS `s.replace('%', '')`: remove the first occurrence of a character. -/
def removeFirst (c : Char) : List Char → List Char
  | [] => []
  | x :: xs => if x = c then xs else x :: removeFirst c xs

def jsReplaceFirst (c : Char) (s : String) : String :=
  ⟨removeFirst c s.toList⟩

/-- The skip test of disk.js lines 25-31: filesystems whose name starts with
`tmpfs`, `udev` or `/dev/loop`, and mountpoints under `/snap/`, `/sys`,
`/proc` or `/run`. -/
def isDenylisted (filesystem mountpoint : String) : Bool :=
  strStartsWith filesystem "tmpfs" ||
  strStartsWith filesystem "udev" ||
  strStartsWith filesystem "/dev/loop" ||
  strStartsWith mountpoint "/snap/" ||
  strStartsWith mountpoint "/sys" ||
  strStartsWith mountpoint "/proc" ||
  strStartsWith mountpoint "/run"

/-- Function `parseDfOutput` (disk.js lines 13-51) after the header skip and the
per-line `trim().split(/\s+/)` tokenization: rows with at least six tokens
destructure into the first six columns; denylisted rows are dropped; the
rest are converted. -/
def parseDfOutput (lines : List (List String)) : List DfDisk :=
  lines.filterMap (fun parts =>
    match parts with
    | filesystem :: size :: used :: available :: usage :: mountpoint :: _ =>
      if isDenylisted filesystem mountpoint then none
      else some
        { filesystem := filesystem
          mountpoint := mountpoint
          usage := usage
          usagePercent := jsParseInt (jsReplaceFirst '%' usage)
          sizeBytes := (jsParseInt size).map (· * 1024)
          usedBytes := (jsParseInt used).map (· * 1024)
          availableBytes := (jsParseInt available).map (· * 1024) }
    | _ => none)

/-- The module-level cache of disk.js: `diskCache` / `diskCacheTime`. -/
structure DiskState where
  diskCache : Option (List DfDisk)
  diskCacheTime : Int
deriving DecidableEq

def initialDiskState : DiskState := { diskCache := none, diskCacheTime := 0 }

def DISK_CACHE_TTL : Int := 30000

/-- What `collectDiskInfo` resolves with: the parsed volume list, or — from
its catch block — the array-wrapped failure object. -/
inductive DiskResult where
  | disks (l : List DfDisk)
  | failureArr (msg : String)
deriving DecidableEq

/-- The value a `DiskResult` contributes to the snapshot's `disk` slot:
volumes are plain objects with no `error` field; the failure is the
one-element array of disk.js lines 142-145. -/
def DiskResult.toSlotVal : DiskResult → SlotVal
  | .disks l => .arr (l.map (fun _ => .obj none none))
  | .failureArr m => diskFailurePayload m

/-- The unconditional cache write of disk.js lines 136-137
(`diskCache = ...; diskCacheTime = now;`): the previous entry and its
timestamp are discarded whatever they were. -/
def diskStore (now : Int) (d : List DfDisk) (_st : DiskState) : DiskState :=
  { diskCache := some d, diskCacheTime := now }

/-- Function `collectDiskInfo` (disk.js lines 75-147, Unix branch). `now` is
`Date.now()` at entry; `read` is the outcome of `execSync('df -kP')`
(`Except.error` models the throw caught on line 140). Returns the resolved
value, the new module state, and how many external calls were issued. -/
def collectDiskInfo (now : Int) (read : Except String (List (List String)))
    (st : DiskState) : DiskResult × DiskState × ℕ :=
  match st.diskCache with
  | some cached =>
    if now - st.diskCacheTime < DISK_CACHE_TTL then
      (.disks cached, st, 0)
    else
      collectDiskInfoMiss now read st
  | none => collectDiskInfoMiss now read st
where
  collectDiskInfoMiss (now : Int) (read : Except String (List (List String)))
      (st : DiskState) : DiskResult × DiskState × ℕ :=
    match read with
    | .ok lines => (.disks (parseDfOutput lines), diskStore now (parseDfOutput lines) st, 1)
    | .error m => (.failureArr m, st, 1)

/-- The module-level cache of the network collector. -/
structure NetworkState where
  networkCache : Option SlotVal
  networkCacheTime : Int

/-- The unconditional cache write of the network collector (disk.js source
lines 313-314 of the combined file): same pattern as `diskStore`. -/
def networkStore (now : Int) (v : SlotVal) (_st : NetworkState) : NetworkState :=
  { networkCache := some v, networkCacheTime := now }

/-! ## Android probe (android.js) -/

/-- What `collectAndroidInfo` resolves with on the paths the claims touch:
the non-Linux short-circuit object, or the assembled result of the three
sub-probes. -/
inductive AndroidResult where
  | unavailable (reason : String)
  | assembled (termuxApi : Bool) (battery thermal device : SlotVal)

/-- The fan-out the Linux path would perform: its settled sub-results and the
number of external tool invocations / file reads it makes (at least the
`which termux-battery-status` probe, so ≥ 1 in practice). -/
structure AndroidAttempt where
  termuxApi : Bool
  battery : SlotVal
  thermal : SlotVal
  device : SlotVal
  extCalls : ℕ

structure AndroidState where
  androidCache : Option AndroidResult
  androidCacheTime : Int

def initialAndroidState : AndroidState := { androidCache := none, androidCacheTime := 0 }

def ANDROID_CACHE_TTL : Int := 5000

/-- Function `collectAndroidInfo` (android.js lines 194-238): serve a fresh cache
entry; otherwise short-circuit off-Linux **before** any external access
(lines 204-209, issuing zero calls and writing nothing); otherwise run the
fan-out and cache the assembled result with the entry timestamp `now`. -/
def collectAndroidInfo (platform : String) (now : Int) (attempt : AndroidAttempt)
    (st : AndroidState) : AndroidResult × AndroidState × ℕ :=
  match st.androidCache with
  | some cached =>
    if now - st.androidCacheTime < ANDROID_CACHE_TTL then
      (cached, st, 0)
    else
      collectAndroidInfoMiss platform now attempt st
  | none => collectAndroidInfoMiss platform now attempt st
where
  collectAndroidInfoMiss (platform : String) (now : Int) (attempt : AndroidAttempt)
      (st : AndroidState) : AndroidResult × AndroidState × ℕ :=
    if platform ≠ "linux" then
      (.unavailable ("Android features not available on " ++ platform), st, 0)
    else
      let r : AndroidResult :=
        .assembled attempt.termuxApi attempt.battery attempt.thermal attempt.device
      (r, { androidCache := some r, androidCacheTime := now }, attempt.extCalls)

/-- A concrete parsed volume, used as cache content in counterexamples. -/
def sampleRootVolume : DfDisk :=
  { filesystem := "/dev/sda1"
    mountpoint := "/"
    usage := "50%"
    usagePercent := some 50
    sizeBytes := some 102400
    usedBytes := some 51200
    availableBytes := some 51200 }

/-! ## Theorems -/

/-- C1 (code-bug evidence). The claim says each failing probe's slot
contributes exactly one warning `"<domain>: <error>"`, with `meta.status`
`"partial"` whenever any warning exists — six warnings when all six probes
fail. Evaluated on the code: the disk collector resolves its failures as a
one-element **array** `[{error, message}]`, and the scan's
`metrics[key]?.error` is `undefined` on an array, so a disk probe failure
contributes no warning. With only disk failing the snapshot reports
status `"ok"` and an empty warning list; with all six probes failing
through their catch blocks the list has five entries, none naming disk. -/
theorem aggregatorDiskFailureInvisible :
    (warningsOf (metricsSlots (.fulfilled (.obj none none)) (.fulfilled (.obj none none))
        (.fulfilled (.obj none none)) (.fulfilled (diskFailurePayload "spawnSync /bin/sh ENOENT"))
        (.fulfilled (.obj none none)) (.fulfilled (.obj none none))) = [] ∧
      statusOf (metricsSlots (.fulfilled (.obj none none)) (.fulfilled (.obj none none))
        (.fulfilled (.obj none none)) (.fulfilled (diskFailurePayload "spawnSync /bin/sh ENOENT"))
        (.fulfilled (.obj none none)) (.fulfilled (.obj none none))) = "ok") ∧
    (warningsOf (metricsSlots (.fulfilled (hostFailurePayload "boom"))
        (.fulfilled (memoryFailurePayload "boom")) (.fulfilled (cpuFailurePayload "boom"))
        (.fulfilled (diskFailurePayload "boom")) (.fulfilled (networkFailurePayload "boom"))
        (.fulfilled (androidFailurePayload "boom"))) =
      [ "host: Failed to collect host information",
        "memory: Failed to collect memory information",
        "cpu: Failed to collect CPU information",
        "network: Failed to collect network information",
        "android: Failed to collect Android information" ] ∧
      statusOf (metricsSlots (.fulfilled (hostFailurePayload "boom"))
        (.fulfilled (memoryFailurePayload "boom")) (.fulfilled (cpuFailurePayload "boom"))
        (.fulfilled (diskFailurePayload "boom")) (.fulfilled (networkFailurePayload "boom"))
        (.fulfilled (androidFailurePayload "boom"))) = "partial") := by
  exact ⟨⟨by decide, by decide⟩, by decide, by decide⟩

/-- C6 (code-bug evidence). The claim says every domain's failure is placed
in its slot as a single object `{error, message}` detectable through the
`error` key. Evaluated on the code at a failing `df` call: the disk
collector resolves with `[{error, message}]` — an array — whose `error`
lookup is `undefined`, while (for contrast) the network collector's failure
payload does expose the `error` key. -/
theorem diskFailurePayloadIsArray :
    (collectDiskInfo 0 (.error "df failed") initialDiskState).1 = .failureArr "df failed" ∧
    DiskResult.toSlotVal (.failureArr "df failed") =
      .arr [.obj (some "Failed to collect disk information") (some "df failed")] ∧
    jsGetError (DiskResult.toSlotVal (.failureArr "df failed")) = none ∧
    jsGetError (networkFailurePayload "net down") =
      some "Failed to collect network information" :=
  ⟨rfl, rfl, rfl, rfl⟩

/-- C7 counterexample. The claim includes overlay mounts in the disk
denylist. On the code, a `df` row for an `overlay` filesystem passes the
skip test of disk.js lines 25-31 and is parsed into the result. -/
theorem overlayNotDenylisted_cex :
    isDenylisted "overlay" "/var/lib/docker/overlay2/abc" = false ∧
    parseDfOutput [["overlay", "1000", "500", "500", "50%", "/var/lib/docker/overlay2/abc"]] =
      [{ filesystem := "overlay", mountpoint := "/var/lib/docker/overlay2/abc",
         usage := "50%", usagePercent := some 50, sizeBytes := some 1024000,
         usedBytes := some 512000, availableBytes := some 512000 }] := by
  exact ⟨by decide, by decide⟩

/-- C7 amended: every `df` row whose filesystem starts with `tmpfs`, `udev`
or `/dev/loop`, or whose mountpoint starts with `/snap/`, `/sys`, `/proc`
or `/run`, is excluded from the parsed result regardless of the size, used
and usage columns; overlay filesystems are not part of the denylist. -/
theorem denylistedLinesExcluded (lines₁ lines₂ : List (List String))
    (fs sz us av ug mp : String) (rest : List String)
    (h : isDenylisted fs mp = true) :
    parseDfOutput (lines₁ ++ (fs :: sz :: us :: av :: ug :: mp :: rest) :: lines₂) =
      parseDfOutput (lines₁ ++ lines₂) := by
  unfold parseDfOutput
  rw [List.filterMap_append, List.filterMap_append, List.filterMap_cons]
  simp [h]

/-- C7 witness: a concrete `tmpfs` row is denylisted and dropped while an
ordinary row survives. -/
theorem denylistedLinesExcluded_wit :
    isDenylisted "tmpfs" "/dev/shm" = true ∧
    parseDfOutput [["tmpfs", "8000", "0", "8000", "0%", "/dev/shm"],
                   ["/dev/sda1", "100", "50", "50", "50%", "/"]] =
      parseDfOutput [["/dev/sda1", "100", "50", "50", "50%", "/"]] :=
  ⟨by decide,
   denylistedLinesExcluded [] [["/dev/sda1", "100", "50", "50", "50%", "/"]]
     "tmpfs" "8000" "0" "8000" "0%" "/dev/shm" [] (by decide)⟩

/-- C2 counterexample. The claim says a probe failure is stored in the cache
so that a second `fetch()` within the TTL returns the cached failure with
no external call. On the code, the disk collector's catch block returns
without writing `diskCache`: after a failing fetch the state is unchanged,
and a second fetch 1000 ms later (well inside the 30 s TTL) issues another
external call. -/
theorem diskFailureNotCached_cex :
    (collectDiskInfo 0 (.error "df: not found") initialDiskState).2.1 = initialDiskState ∧
    (collectDiskInfo 0 (.error "df: not found") initialDiskState).2.2 = 1 ∧
    (collectDiskInfo 1000 (.error "df: not found")
        (collectDiskInfo 0 (.error "df: not found") initialDiskState).2.1).2.2 = 1 :=
  ⟨rfl, rfl, rfl⟩

/-- C2 amended, scoped to the claim's cited disk collector: `fetch()` stores
only successful outcomes in its cache. A non-expired cached success is
served with no external call; a failure is returned without being stored,
so a fetch after a failure never finds a cached failure; and every fetch
with an empty or expired cache issues exactly one new external call,
whether the raw read fails (empty and expired cases) or succeeds (empty
and expired cases). -/
theorem diskCacheStoresOnlySuccesses :
    (∀ (now : Int) (read : Except String (List (List String))) (st : DiskState)
        (cached : List DfDisk), st.diskCache = some cached →
        now - st.diskCacheTime < DISK_CACHE_TTL →
        collectDiskInfo now read st = (.disks cached, st, 0)) ∧
    (∀ (now : Int) (m : String) (st : DiskState),
        st.diskCache = none →
        collectDiskInfo now (.error m) st = (.failureArr m, st, 1)) ∧
    (∀ (now : Int) (m : String) (st : DiskState) (cached : List DfDisk),
        st.diskCache = some cached → DISK_CACHE_TTL ≤ now - st.diskCacheTime →
        collectDiskInfo now (.error m) st = (.failureArr m, st, 1)) ∧
    (∀ (now : Int) (lines : List (List String)) (st : DiskState),
        st.diskCache = none →
        collectDiskInfo now (.ok lines) st =
          (.disks (parseDfOutput lines),
           { diskCache := some (parseDfOutput lines), diskCacheTime := now }, 1)) ∧
    (∀ (now : Int) (lines : List (List String)) (st : DiskState)
        (cached : List DfDisk),
        st.diskCache = some cached → DISK_CACHE_TTL ≤ now - st.diskCacheTime →
        collectDiskInfo now (.ok lines) st =
          (.disks (parseDfOutput lines),
           { diskCache := some (parseDfOutput lines), diskCacheTime := now }, 1)) := by
  refine ⟨?_, ?_, ?_, ?_, ?_⟩
  · rintro now read ⟨sc, t⟩ cached hc hl
    simp only at hc
    subst hc
    simp [collectDiskInfo, hl]
  · rintro now m ⟨sc, t⟩ hc
    simp only at hc
    subst hc
    simp [collectDiskInfo, collectDiskInfo.collectDiskInfoMiss]
  · rintro now m ⟨sc, t⟩ cached hc hl
    simp only at hc
    subst hc
    simp only [collectDiskInfo]
    rw [if_neg (by simp only at hl ⊢; omega)]
    simp [collectDiskInfo.collectDiskInfoMiss]
  · rintro now lines ⟨sc, t⟩ hc
    simp only at hc
    subst hc
    simp [collectDiskInfo, collectDiskInfo.collectDiskInfoMiss, diskStore]
  · rintro now lines ⟨sc, t⟩ cached hc hl
    simp only at hc
    subst hc
    simp only [collectDiskInfo]
    rw [if_neg (by simp only at hl ⊢; omega)]
    simp [collectDiskInfo.collectDiskInfoMiss, diskStore]

/-- C2 witness: the five cases of the amended statement at concrete inputs. -/
theorem diskCacheStoresOnlySuccesses_wit :
    collectDiskInfo 5 (.error "x") { diskCache := some [], diskCacheTime := 0 } =
      (.disks [], { diskCache := some [], diskCacheTime := 0 }, 0) ∧
    collectDiskInfo 0 (.error "x") initialDiskState = (.failureArr "x", initialDiskState, 1) ∧
    collectDiskInfo 40000 (.error "x") { diskCache := some [], diskCacheTime := 0 } =
      (.failureArr "x", { diskCache := some [], diskCacheTime := 0 }, 1) ∧
    collectDiskInfo 0 (.ok []) initialDiskState =
      (.disks (parseDfOutput []), { diskCache := some (parseDfOutput []), diskCacheTime := 0 }, 1) ∧
    collectDiskInfo 40000 (.ok []) { diskCache := some [sampleRootVolume], diskCacheTime := 0 } =
      (.disks (parseDfOutput []),
       { diskCache := some (parseDfOutput []), diskCacheTime := 40000 }, 1) :=
  ⟨diskCacheStoresOnlySuccesses.1 5 (.error "x") _ [] rfl (by decide),
   diskCacheStoresOnlySuccesses.2.1 0 "x" _ rfl,
   diskCacheStoresOnlySuccesses.2.2.1 40000 "x" _ [] rfl (by decide),
   diskCacheStoresOnlySuccesses.2.2.2.1 0 [] _ rfl,
   diskCacheStoresOnlySuccesses.2.2.2.2 40000 [] _ [sampleRootVolume] rfl (by decide)⟩

/-- C9 counterexample. The claim says a capture timestamp comparison before
each store keeps an older in-flight result from overwriting a newer cache
entry. The store of disk.js lines 136-137 is unconditional: executing it
for a call that captured `now = 0` after a store from a call that captured
`now = 10` leaves the cache holding the older call's data with the
timestamp regressed from 10 to 0. -/
theorem cacheStoreRegression_cex :
    (diskStore 10 [sampleRootVolume] initialDiskState).diskCacheTime = 10 ∧
    (diskStore 0 [] (diskStore 10 [sampleRootVolume] initialDiskState)).diskCacheTime = 0 ∧
    (diskStore 0 [] (diskStore 10 [sampleRootVolume] initialDiskState)).diskCache = some [] ∧
    (0 : Int) < 10 :=
  ⟨rfl, rfl, rfl, by decide⟩

/-- C9 amended: the cache writes of the disk and network collectors are
unconditional — no timestamp is consulted before storing, so between two
overlapping calls whichever stores last wins, whatever its capture
timestamp; in particular a later store with an older timestamp regresses
the entry. -/
theorem cacheStoreUnconditional :
    (∀ (t₁ t₂ : Int) (d₁ d₂ : List DfDisk) (st : DiskState),
        diskStore t₂ d₂ (diskStore t₁ d₁ st) =
          { diskCache := some d₂, diskCacheTime := t₂ }) ∧
    (∀ (t₁ t₂ : Int) (v₁ v₂ : SlotVal) (st : NetworkState),
        networkStore t₂ v₂ (networkStore t₁ v₁ st) =
          { networkCache := some v₂, networkCacheTime := t₂ }) :=
  ⟨fun _ _ _ _ _ => rfl, fun _ _ _ _ _ => rfl⟩

/-- C8: on every platform other than `linux`, `collectAndroidInfo` with an
empty cache short-circuits to `{available: false, reason}` with a non-empty
reason, performing zero external calls and leaving the state untouched. -/
theorem androidShortCircuitNonLinux (p : String) (now : Int)
    (attempt : AndroidAttempt) (st : AndroidState)
    (hp : p ≠ "linux") (hc : st.androidCache = none) :
    collectAndroidInfo p now attempt st =
      (.unavailable ("Android features not available on " ++ p), st, 0) ∧
    ("Android features not available on " ++ p) ≠ "" := by
  constructor
  · rcases st with ⟨c, t⟩
    simp only at hc
    subst hc
    simp [collectAndroidInfo, collectAndroidInfo.collectAndroidInfoMiss, hp]
  · intro h
    have hlen : ("Android features not available on " ++ p).length = ("" : String).length := by
      rw [h]
    rw [String.length_append] at hlen
    have h34 : ("Android features not available on " : String).length = 34 := rfl
    have h0 : ("" : String).length = 0 := rfl
    omega

/-- C8 witness: the short-circuit at the concrete platform `win32`. -/
theorem androidShortCircuitNonLinux_wit :
    collectAndroidInfo "win32" 0
        { termuxApi := false, battery := .obj none none, thermal := .obj none none,
          device := .obj none none, extCalls := 3 } initialAndroidState =
      (.unavailable ("Android features not available on " ++ "win32"),
        initialAndroidState, 0) ∧
    ("Android features not available on " ++ "win32") ≠ "" :=
  androidShortCircuitNonLinux "win32" 0
    { termuxApi := false, battery := .obj none none, thermal := .obj none none,
      device := .obj none none, extCalls := 3 } initialAndroidState (by decide) rfl

/-- Reduction of the first component of `calculateCpuUsage` on the Linux
branch with a prior sample. -/
theorem calcCpu_linux_delta_fst (s prev : CpuSample) (l : ℚ) :
    (calculateCpuUsage "linux" (some s) l (some prev)).1 =
      .ok (max 0 (min 100 (if 0 < s.total - prev.total then
        ((((s.total - prev.total) - ((s.idle + s.iowait) - (prev.idle + prev.iowait)) : Int)) : ℚ) /
          (((s.total - prev.total : Int)) : ℚ) * 100
      else 0))) := rfl

/-- Algebraic form of the delta quotient. -/
theorem delta_formula (a b : ℚ) (h : b ≠ 0) : (b - a) / b * 100 = 100 * (1 - a / b) := by
  field_simp
  ring

/-- C3: whenever a prior sample exists and the tick-total delta is positive,
the usage returned by the CPU probe equals `100 * (1 - idleDelta/totalDelta)`
clamped to [0,100], with I/O-wait ticks counted as idle. -/
theorem cpuDeltaUsageFormula (prev s : CpuSample) (l : ℚ)
    (h : 0 < s.total - prev.total) :
    (calculateCpuUsage "linux" (some s) l (some prev)).1 =
      .ok (max 0 (min 100 (100 * (1 -
        ((((s.idle + s.iowait) - (prev.idle + prev.iowait) : Int)) : ℚ) /
          (((s.total - prev.total : Int)) : ℚ))))) := by
  have hne : (((s.total - prev.total : Int)) : ℚ) ≠ 0 := by
    exact_mod_cast h.ne'
  rw [calcCpu_linux_delta_fst, if_pos h]
  simp only [ProbeResult.ok.injEq]
  refine congrArg (fun x => max 0 (min 100 x)) ?_
  rw [Int.cast_sub]
  exact delta_formula _ _ hne

/-- C3 witness: the samples `{idle=100, total=1000}` then
`{idle=150, total=1100}` (iowait 0) yield usage exactly 50. -/
theorem cpuDeltaUsageFormula_wit :
    (calculateCpuUsage "linux" (some ⟨1100, 150, 0⟩) 0 (some ⟨1000, 100, 0⟩)).1 = .ok 50 := by
  have h := cpuDeltaUsageFormula ⟨1000, 100, 0⟩ ⟨1100, 150, 0⟩ 0 (by decide)
  rw [h]
  simp only [ProbeResult.ok.injEq]
  norm_num

/-- C4 counterexample. The claim says a failed raw read surfaces a probe
failure to the caller rather than a computed usage value. On the code, with
a stored prior sample and a throwing /proc/stat read (load average 3), the
probe returns the computed fallback value 30 — not a failure — although it
does leave the stored sample untouched. -/
theorem cpuFailedReadReturnsFallback_cex :
    ((calculateCpuUsage "linux" none 3 (some ⟨1000, 100, 0⟩)).1).isFailure = false ∧
    (calculateCpuUsage "linux" none 3 (some ⟨1000, 100, 0⟩)).1 = .ok 30 ∧
    (calculateCpuUsage "linux" none 3 (some ⟨1000, 100, 0⟩)).2 = some ⟨1000, 100, 0⟩ := by
  refine ⟨rfl, ?_, rfl⟩
  show ProbeResult.ok (min 100 ((3 : ℚ) * 10)) = .ok 30
  norm_num

/-- C4 amended: a failed raw read leaves the stored sample untouched and the
operation returns the load-average fallback `min(100, loadavg*10)` to its
caller; it never surfaces a probe failure. -/
theorem cpuFailedReadKeepsSample :
    (∀ (l : ℚ) (prev : CpuSample),
        calculateCpuUsage "linux" none l (some prev) = (.ok (min 100 (l * 10)), some prev)) ∧
    (∀ (l : ℚ) (st : Option CpuSample),
        ((calculateCpuUsage "linux" none l st).1).isFailure = false) :=
  ⟨fun _ _ => rfl, fun _ st => by cases st <;> rfl⟩

/-- C5 counterexample. The claim says the fallback usage is
`min(100, loadavg*10)` whenever the platform lacks /proc/stat. On the code,
the non-Linux branch returns `loadavg*10` with no cap: with load average 20
it returns 200, and it seeds no sample. -/
theorem cpuFallbackUncapped_cex :
    (calculateCpuUsage "darwin" none 20 none).1 = .ok 200 ∧
    (calculateCpuUsage "darwin" none 20 none).2 = none ∧
    ¬ ((200 : ℚ) = min 100 (20 * 10)) := by
  refine ⟨?_, rfl, by norm_num⟩
  show ProbeResult.ok ((20 : ℚ) * 10) = .ok 200
  norm_num

/-- C5 amended: on any non-Linux platform the returned usage is `loadavg*10`
uncapped with the stored sample untouched (no read occurs, so nothing
seeds); on Linux, a first successful read with no prior sample returns
`min(100, loadavg*10)` and seeds the stored sample for the next call. -/
theorem cpuFallbackBehavior :
    (∀ (p : String) (r : Option CpuSample) (l : ℚ) (st : Option CpuSample),
        p ≠ "linux" → calculateCpuUsage p r l st = (.ok (l * 10), st)) ∧
    (∀ (l : ℚ) (s : CpuSample),
        calculateCpuUsage "linux" (some s) l none = (.ok (min 100 (l * 10)), some s)) := by
  refine ⟨?_, fun _ _ => rfl⟩
  intro p r l st hp
  simp [calculateCpuUsage, hp]

/-- C5 witness: both branches of the amended statement at concrete inputs. -/
theorem cpuFallbackBehavior_wit :
    calculateCpuUsage "darwin" none 2 none = (.ok (2 * 10), none) ∧
    calculateCpuUsage "linux" (some ⟨500, 10, 5⟩) 2 none =
      (.ok (min 100 (2 * 10)), some ⟨500, 10, 5⟩) :=
  ⟨cpuFallbackBehavior.1 "darwin" none 2 none (by decide),
   cpuFallbackBehavior.2 2 ⟨500, 10, 5⟩⟩

/-- The per-core percentage is never negative: the idle ticks are one of the
summands of the core's total. -/
theorem corePct_nonneg (c : CpuTimes) : 0 ≤ corePct c := by
  unfold corePct
  by_cases h : 0 < cpuTotal c
  · rw [if_pos h]
    have hle : c.idle ≤ cpuTotal c := by unfold cpuTotal; omega
    have h1 : (c.idle : ℚ) ≤ (cpuTotal c : ℚ) := by exact_mod_cast hle
    have h2 : (0 : ℚ) ≤ (cpuTotal c : ℚ) := by positivity
    have h3 := div_nonneg (by linarith : (0 : ℚ) ≤ (cpuTotal c : ℚ) - (c.idle : ℚ)) h2
    nlinarith
  · rw [if_neg h]

/-- Rounding to two decimals keeps a value of [0, 100] inside [0, 100]. -/
theorem round2_bounds (x : ℚ) (h0 : 0 ≤ x) (h100 : x ≤ 100) :
    0 ≤ round2 x ∧ round2 x ≤ 100 := by
  unfold round2
  constructor
  · apply div_nonneg _ (by norm_num)
    have hr : (0 : ℤ) ≤ round (x * 100) := by
      rw [round_eq]
      apply Int.le_floor.mpr
      push_cast
      linarith
    exact_mod_cast hr
  · rw [div_le_iff₀ (by norm_num : (0 : ℚ) < 100)]
    have hr : round (x * 100) ≤ (10000 : ℤ) := by
      rw [round_eq]
      have hlt : ⌊x * 100 + 1 / 2⌋ < (10001 : ℤ) := by
        apply Int.floor_lt.mpr
        push_cast
        linarith
      omega
    calc ((round (x * 100) : ℤ) : ℚ) ≤ (10000 : ℚ) := by exact_mod_cast hr
      _ = 100 * 100 := by norm_num

/-- C10: the CPU collector's divisions are guarded — a non-positive tick
delta yields usage 0 in the delta branch instead of dividing, a core with
total 0 gets core percent 0 — and every entry of the `coreUsage` list has
its usage in [0, 100]. -/
theorem coreUsageBounded :
    (∀ (cpus : List CpuTimes) (e : ℕ × ℚ), e ∈ coreUsageOf cpus → 0 ≤ e.2 ∧ e.2 ≤ 100) ∧
    (∀ (prev s : CpuSample) (l : ℚ), s.total - prev.total ≤ 0 →
        (calculateCpuUsage "linux" (some s) l (some prev)).1 = .ok 0) ∧
    (∀ c : CpuTimes, cpuTotal c = 0 → corePct c = 0) := by
  refine ⟨?_, ?_, ?_⟩
  · intro cpus e he
    unfold coreUsageOf at he
    obtain ⟨ic, _, rfl⟩ := List.mem_map.mp he
    exact round2_bounds _ (le_min (by norm_num) (corePct_nonneg ic.2)) (min_le_left _ _)
  · intro prev s l h
    rw [calcCpu_linux_delta_fst, if_neg (not_lt.mpr h)]
    simp only [ProbeResult.ok.injEq]
    norm_num
  · intro c h
    unfold corePct
    rw [if_neg (by omega)]

/-- C10 witness: the three parts at concrete inputs — a one-core list with
ticks `{user=2, idle=1}`, equal consecutive samples, and an all-zero core. -/
theorem coreUsageBounded_wit :
    (0 ≤ round2 (min 100 (corePct ⟨2, 0, 0, 1, 0⟩)) ∧
      round2 (min 100 (corePct ⟨2, 0, 0, 1, 0⟩)) ≤ 100) ∧
    (calculateCpuUsage "linux" (some ⟨1000, 100, 0⟩) 5 (some ⟨1000, 100, 0⟩)).1 = .ok 0 ∧
    corePct ⟨0, 0, 0, 0, 0⟩ = 0 := by
  obtain ⟨h1, h2, h3⟩ := coreUsageBounded
  refine ⟨?_, h2 ⟨1000, 100, 0⟩ ⟨1000, 100, 0⟩ 5 (by decide), h3 ⟨0, 0, 0, 0, 0⟩ rfl⟩
  exact h1 [⟨2, 0, 0, 1, 0⟩] (0, round2 (min 100 (corePct ⟨2, 0, 0, 1, 0⟩)))
    (List.mem_singleton.mpr rfl)
